import Mathlib

/-!
Verification of the Kallang pickleball monitoring bot
(src/kallang_cloud_bot.py) against its natural-language specification.

The Python source is shallowly embedded below.  Interactions with the
browser driver, the SMTP server and the random number generator are the
environment of the program; each such interaction is represented by an
input parameter carrying the value the environment would return (for
example, whether a probe located an element, the current URL string, the
outcome of an SMTP transaction, or the sampled jitter).  All control flow
and all string heuristics of the source are translated literally.
-/

/-! ## String helpers (Python `in` and `str.lower`) -/

/-- Does the first character list start the second one? -/
def startsChars : List Char → List Char → Bool
  | [], _ => true
  | _ :: _, [] => false
  | a :: as, b :: bs => a == b && startsChars as bs

/-- Python substring containment: does `needle` occur inside the haystack? -/
def subChars (needle : List Char) : List Char → Bool
  | [] => startsChars needle []
  | b :: bs => startsChars needle (b :: bs) || subChars needle bs

/-- Python `str.lower()` on the character list of a string (the source only
feeds ASCII vocabulary through it, where `Char.toLower` agrees). -/
def lowerChars (s : String) : List Char :=
  s.toList.map Char.toLower

/-! ## Session verification: `is_logged_in` (src lines 457-485) -/

/-- The rendered page as seen through the driver: current URL and body text. -/
structure PageView where
  url : String
  text : String

/-- Vocabulary of logged-in page indicators (src line 471). -/
def logged_in_indicators : List String :=
  ["book", "facility", "booking", "my bookings", "schedule"]

/-- Vocabulary of login-page keywords (src line 477). -/
def login_page_keywords : List String :=
  ["member sign in", "forgot password", "not a member yet"]

/-- Embedding of `is_logged_in(driver)` (src lines 457-485).  `inspectOk`
is false when reading the URL or the body text raises; the source's
`except` branch then returns `True`. -/
def is_logged_in (inspectOk : Bool) (page : PageView) : Bool :=
  if !inspectOk then true
  else if subChars "#/login".toList (lowerChars page.url) then false
  else if logged_in_indicators.any (fun s => subChars s.toList (lowerChars page.text)) then true
  else if login_page_keywords.any (fun s => subChars s.toList (lowerChars page.text)) then false
  else true

/-! ## Availability scan: `check_for_slots` (src lines 487-613) -/

/-- A "Book" action element found on the page.  `probeOk` is false when the
per-button probe (`is_displayed`, parent lookup, text extraction) raised,
in which case the source's inner `except` skips the button.  `context` is
the raw text of the nearest structural ancestor (the source lowercases it
before matching). -/
structure Button where
  displayed : Bool
  enabled : Bool
  probeOk : Bool
  context : String

deriving instance DecidableEq for Button

/-- One scan's environment: `fault` models an exception escaping the scan
body (outermost `except`, src lines 608-613), `loggedIn1` and `loggedIn2`
are the two `is_logged_in` results (before navigation, src line 496, and
after navigation plus dismissal, src line 509), `pageSource` is the raw
markup, `findOk` is false when `find_elements` for the Book buttons raised
(src lines 596-597), and `buttons` are the Book buttons found. -/
structure ScanInput where
  fault : Bool
  loggedIn1 : Bool
  loggedIn2 : Bool
  pageSource : String
  findOk : Bool
  buttons : List Button

deriving instance DecidableEq for ScanInput

/-- The fixed vocabulary of target-hour time tokens (src lines 546-555). -/
def time_patterns : List String :=
  ["19:00", "20:00", "7:00 PM", "8:00 PM", "7:00pm", "8:00pm", "07:00 PM", "08:00 PM"]

/-- The hour-boundary digit substrings matched against a button's context
(src line 588). -/
def hour_context_patterns : List String :=
  ["19", "20", "7", "8"]

/-- Day-token check for Wednesday (src line 533); computed for logging
only, it never gates the scan result. -/
def has_wed (page_text : String) : Bool :=
  subChars "WEDNESDAY".toList page_text.toList ||
    subChars "Wednesday".toList page_text.toList ||
    subChars "WED".toList page_text.toList

/-- Day-token check for Friday (src line 534); logging only. -/
def has_fri (page_text : String) : Bool :=
  subChars "FRIDAY".toList page_text.toList ||
    subChars "Friday".toList page_text.toList ||
    subChars "FRI".toList page_text.toList

/-- Per-button candidate filter (src lines 580-592): the button must have
survived its probe, be displayed and enabled, and its lowercased parent
context must contain one of the hour digit substrings. -/
def isCandidate (b : Button) : Bool :=
  b.probeOk && b.displayed && b.enabled &&
    hour_context_patterns.any (fun p => subChars p.toList (lowerChars b.context))

/-- Embedding of `check_for_slots(driver)` (src lines 487-613).  Returns
the pair `(has_availability, book_buttons)` exactly along the source's
return paths: scan fault, either failed session check, and absence of
every time token all yield `(false, [])`; otherwise the candidate filter
runs and the flag is true exactly when the collected list is nonempty. -/
def check_for_slots (inp : ScanInput) : Bool × List Button :=
  if inp.fault then (false, [])
  else if !inp.loggedIn1 then (false, [])
  else if !inp.loggedIn2 then (false, [])
  else
    match time_patterns.filter (fun p => subChars p.toList inp.pageSource.toList) with
    | [] => (false, [])
    | _ :: _ =>
      match (if inp.findOk then inp.buttons else []).filter isCandidate with
      | [] => (false, [])
      | b :: bs => (true, b :: bs)

/-! ## Login: `login` (src lines 174-349) -/

/-- Embedding of `login(driver)` (src lines 174-349).  `loginFault` models
an exception escaping the body (outer `except`, src lines 344-349);
`emailFound` is whether any email-field selector matched (src lines
191-211); `submitOk` is whether any submit mechanism (button selectors,
JavaScript click, Enter key) succeeded (src lines 230-279);
`urlAfterSubmit` is the URL read after the 8 second settle (src line 284);
`retryOk` is whether the Enter-key retry could locate the password field
(src lines 294-310); `urlAfterRetry` is the URL after that retry;
`postText` is the post-submit page body text, which the source never
inspects.  The result is the boolean the source returns. -/
def login (loginFault emailFound submitOk : Bool) (urlAfterSubmit : String)
    (retryOk : Bool) (urlAfterRetry : String) (postText : String) : Bool :=
  if loginFault then false
  else if !emailFound then false
  else if !submitOk then false
  else if subChars "#/login".toList (lowerChars urlAfterSubmit) then
    (if !retryOk then false
     else if subChars "#/login".toList (lowerChars urlAfterRetry) then false
     else true)
  else true

/-! ## Interstitial dismissal and notification send -/

/-- Embedding of `dismiss_popups(driver)` (src lines 351-455): both the
normal completion (src line 451) and the exception handler (src line 455)
return `True`, so dismissal failure never aborts a scan. -/
def dismiss_popups (fault : Bool) : Bool :=
  match fault with
  | true => true
  | false => true

/-- Embedding of `send_notification_email(slot_count)` (src lines
615-670): returns `True` when the SMTP transaction succeeds and `False`
when it raises (src lines 668-670); the exception never propagates. -/
def send_notification_email (smtpOk : Bool) (slot_count : Nat) : Bool :=
  if smtpOk then true else false

/-! ## Backoff and re-login retry: `run_bot` (src lines 746-768) -/

/-- Embedding of `random_delay(min_seconds, max_seconds)` (src lines
52-55): `random.uniform(a, b)` is modelled as `a + t * (b - a)` for a
sample `t` in the unit interval. -/
def random_delay (min_seconds max_seconds t : ℚ) : ℚ :=
  min_seconds + t * (max_seconds - min_seconds)

/-- The re-login retry budget `max_login_attempts` (src line 688). -/
def max_login_attempts : Nat := 3

/-- One unrolling step of the re-login `while` loop (src lines 752-768):
`outcomes k` is the result of the k-th `login` call (1-indexed), `attempt`
the attempts already made, and the fuel the attempts remaining. -/
def reloginFrom (outcomes : Nat → Bool) : Nat → Nat → Option Nat
  | _, 0 => none
  | attempt, rem + 1 =>
    if outcomes (attempt + 1) then some (attempt + 1)
    else reloginFrom outcomes (attempt + 1) rem

/-- The re-login loop of `run_bot` (src lines 750-768): returns the index
of the first successful attempt, or `none` when the budget of
`max_login_attempts` is exhausted (the source then does `return`, which
is fatal for the monitoring loop). -/
def relogin (outcomes : Nat → Bool) : Option Nat :=
  reloginFrom outcomes 0 max_login_attempts

/-- Number of `login` calls the re-login loop performs, same recursion as
`reloginFrom`. -/
def reloginCallsFrom (outcomes : Nat → Bool) : Nat → Nat → Nat
  | _, 0 => 0
  | attempt, rem + 1 =>
    if outcomes (attempt + 1) then 1
    else 1 + reloginCallsFrom outcomes (attempt + 1) rem

/-- Number of `login` calls made by the re-login loop. -/
def reloginCalls (outcomes : Nat → Bool) : Nat :=
  reloginCallsFrom outcomes 0 max_login_attempts

/-! ## The monitoring loop: `run_bot` (src lines 738-801) -/

/-- Why the monitoring loop stopped: `cancelled` is `KeyboardInterrupt`
(src line 788), `sessionUnrecoverable` the exhausted re-login budget
(src lines 767-768), and `sleepError` the `ValueError` raised by
`time.sleep` on a negative jittered duration (caught at src line 790). -/
inductive StopReason where
  | cancelled
  | sessionUnrecoverable
  | sleepError

deriving instance DecidableEq for StopReason

/-- The environment of one iteration of the monitoring loop: the top-of-
cycle `is_logged_in` result (src line 746), the `login` outcomes consumed
by the re-login loop when the session expired, the scan environment, the
SMTP outcome, the sampled jitter `random.randint(-300, 300)` (src line
782), and whether an external interrupt arrives during the sleep. -/
structure CycleInput where
  loggedIn : Bool
  reloginOutcomes : Nat → Bool
  scan : ScanInput
  sendOk : Bool
  jitter : Int
  cancelled : Bool

/-- The session survives the top of the cycle: either the pre-scan check
passed or the re-login loop succeeded. -/
def sessionAlive (inp : CycleInput) : Bool :=
  inp.loggedIn || (relogin inp.reloginOutcomes).isSome

/-- The notification condition of the cycle (src line 772):
`has_slots and not already_notified`. -/
def cycleFires (st : Bool) (inp : CycleInput) : Bool :=
  (check_for_slots inp.scan).1 && !st

/-- The result of the `send_notification_email` call, made exactly when
the gate fires (src line 775); the source discards this value. -/
def cycleSent (st : Bool) (inp : CycleInput) : Option Bool :=
  if cycleFires st inp then
    some (send_notification_email inp.sendOk (check_for_slots inp.scan).2.length)
  else none

/-- Observable outcome of one loop iteration: whether the notification
fired, the `already_notified` flag afterwards, the discarded send result,
and the stop reason if the iteration ended the loop. -/
structure CycleOut where
  fired : Bool
  notified : Bool
  sent : Option Bool
  stop : Option StopReason

deriving instance DecidableEq for CycleOut

/-- One iteration of the monitoring `while True` loop (src lines 739-786).
If the session is dead and the re-login budget is exhausted the iteration
stops the loop (src line 768).  Otherwise the scan and the notification
gate run: `already_notified := already_notified or fires` (src line 776),
unconditionally on the send result.  The iteration then stops on an
external interrupt, stops when the jittered sleep duration is negative
(`time.sleep` raises), and otherwise continues. -/
def cycle (interval : Int) (st : Bool) (inp : CycleInput) : CycleOut :=
  if sessionAlive inp then
    if inp.cancelled then
      ⟨cycleFires st inp, st || cycleFires st inp, cycleSent st inp, some .cancelled⟩
    else if interval + inp.jitter < 0 then
      ⟨cycleFires st inp, st || cycleFires st inp, cycleSent st inp, some .sleepError⟩
    else
      ⟨cycleFires st inp, st || cycleFires st inp, cycleSent st inp, none⟩
  else ⟨false, st, none, some .sessionUnrecoverable⟩

/-- Outcome of a run of the monitoring loop: final `already_notified`
flag, stop reason (`none` when the supplied cycle list ran out), and the
number of notification firings. -/
structure RunOut where
  notified : Bool
  stop : Option StopReason
  fires : Nat

deriving instance DecidableEq for RunOut

/-- The monitoring loop over a list of cycle environments, threading
`already_notified` (initialised to `False` at src line 687). -/
def runLoop (interval : Int) : Bool → List CycleInput → RunOut
  | st, [] => ⟨st, none, 0⟩
  | st, inp :: rest =>
    let c := cycle interval st inp
    match c.stop with
    | some r => ⟨c.notified, some r, if c.fired then 1 else 0⟩
    | none =>
      let o := runLoop interval c.notified rest
      ⟨o.notified, o.stop, (if c.fired then 1 else 0) + o.fires⟩

/-- Embedding of `run_bot` around the monitoring loop (src lines 672-801):
the loop body inside `try`, with the `finally` block (src lines 795-801)
releasing the driver on every exit path — the second component records
that the teardown ran. -/
def run_bot (interval : Int) (l : List CycleInput) : RunOut × Bool :=
  (runLoop interval false l, true)

/-! ## Concrete inputs used by witnesses and counterexamples -/

/-- A visible, enabled Book button whose context mentions 19:00. -/
def bGood : Button := ⟨true, true, true, "Wed 19:00 Book now"⟩

/-- A healthy scan of a page advertising a 19:00 slot. -/
def scanAvail : ScanInput := ⟨false, true, true, "slots at 19:00 today", true, [bGood]⟩

/-- A healthy scan of a page with no target-hour token. -/
def scanNone : ScanInput := ⟨false, true, true, "no slots today", true, []⟩

/-- A scan during which the post-navigation session check failed, on a
page that does advertise a 19:00 slot with a bookable button. -/
def scanExpired : ScanInput := ⟨false, true, false, "slots at 19:00 today", true, [bGood]⟩

/-- A healthy cycle whose scan finds availability. -/
def cycAvail : CycleInput := ⟨true, fun _ => true, scanAvail, true, 0, false⟩

/-- A healthy cycle finding availability whose SMTP send fails. -/
def cycSendFail : CycleInput := ⟨true, fun _ => true, scanAvail, false, 0, false⟩

/-- A cycle whose scan hit a mid-scan session expiry. -/
def cycExpired : CycleInput := ⟨true, fun _ => true, scanExpired, true, 0, false⟩

/-- A cycle with jitter -300 (within the sampled bound) against a
configured interval of 60 seconds: the sleep duration is negative. -/
def cycNegSleep : CycleInput := ⟨true, fun _ => true, scanNone, true, -300, false⟩

/-! ## Helper lemmas -/

/-- A scan whose post-navigation session check failed returns the generic
no-availability value. -/
theorem check_expired (s : ScanInput) (h : s.loggedIn2 = false) :
    check_for_slots s = (false, []) := by
  unfold check_for_slots
  split
  · rfl
  · split
    · rfl
    · split
      · rfl
      · simp_all

/-- The fired flag of a cycle equals the gate condition guarded by session
survival. -/
theorem cycle_fired_eq (interval : Int) (st : Bool) (inp : CycleInput) :
    (cycle interval st inp).fired = (sessionAlive inp && cycleFires st inp) := by
  unfold cycle
  split
  · split
    · simp_all
    · split <;> simp_all
  · simp_all

/-- The notified flag after a cycle is the old flag or-ed with the firing:
the only mutation is false to true. -/
theorem cycle_notified_eq (interval : Int) (st : Bool) (inp : CycleInput) :
    (cycle interval st inp).notified = (st || (cycle interval st inp).fired) := by
  unfold cycle
  split
  · split
    · rfl
    · split <;> rfl
  · simp

/-- A dead session with an exhausted re-login budget stops the loop. -/
theorem cycle_stop_sessionDead (interval : Int) (st : Bool) (inp : CycleInput)
    (h : sessionAlive inp = false) :
    cycle interval st inp = ⟨false, st, none, some .sessionUnrecoverable⟩ := by
  unfold cycle
  simp [h]

/-- A cycle with a live session, no interrupt and a non-negative sleep
duration continues the loop. -/
theorem cycle_stop_none (interval : Int) (st : Bool) (inp : CycleInput)
    (halive : sessionAlive inp = true) (hc : inp.cancelled = false)
    (hj : 0 ≤ interval + inp.jitter) :
    (cycle interval st inp).stop = none := by
  unfold cycle
  simp [halive, hc, not_lt.mpr hj]

/-- Every stop reason of a cycle is accounted for by its cause. -/
theorem cycle_stop_cases (interval : Int) (st : Bool) (inp : CycleInput) (r : StopReason)
    (h : (cycle interval st inp).stop = some r) :
    (r = .cancelled ∧ inp.cancelled = true) ∨
    (r = .sessionUnrecoverable ∧ sessionAlive inp = false) ∨
    (r = .sleepError ∧ interval + inp.jitter < 0) := by
  unfold cycle at h
  split at h
  · split at h
    · simp_all
    · split at h
      · simp_all
      · simp_all
  · simp_all

/-- Once the notified flag is set, no later cycle fires. -/
theorem runLoop_fires_zero (interval : Int) (l : List CycleInput) :
    (runLoop interval true l).fires = 0 := by
  induction l with
  | nil => rfl
  | cons inp rest ih =>
    have hf : (cycle interval true inp).fired = false := by
      rw [cycle_fired_eq]
      simp [cycleFires]
    have hn : (cycle interval true inp).notified = true := by
      rw [cycle_notified_eq]
      simp
    cases hs : (cycle interval true inp).stop with
    | some r => simp [runLoop, hs, hf]
    | none => simp [runLoop, hs, hf, hn, ih]

/-- Starting un-notified, the whole run fires at most once. -/
theorem runLoop_fires_le_one (interval : Int) (l : List CycleInput) :
    (runLoop interval false l).fires ≤ 1 := by
  induction l with
  | nil => simp [runLoop]
  | cons inp rest ih =>
    cases hf : (cycle interval false inp).fired with
    | false =>
      have hn : (cycle interval false inp).notified = false := by
        rw [cycle_notified_eq, hf]
        rfl
      cases hs : (cycle interval false inp).stop with
      | some r => simp [runLoop, hs, hf]
      | none => simpa [runLoop, hs, hf, hn] using ih
    | true =>
      have hn : (cycle interval false inp).notified = true := by
        rw [cycle_notified_eq, hf]
        simp
      cases hs : (cycle interval false inp).stop with
      | some r => simp [runLoop, hs, hf]
      | none => simp [runLoop, hs, hf, hn, runLoop_fires_zero]

/-! ## Claim theorems -/

/-- C2: every action reference returned in a scan's candidate list refers
to an element that was visible, was enabled, and whose ancestor context
text contains at least one of the substrings 19, 20, 7, 8; and the scan's
availability flag is true exactly when the candidate list is nonempty. -/
theorem scan_candidates_invariant (inp : ScanInput) :
    (∀ b ∈ (check_for_slots inp).2,
      b.displayed = true ∧ b.enabled = true ∧
      hour_context_patterns.any (fun p => subChars p.toList (lowerChars b.context)) = true) ∧
    ((check_for_slots inp).1 = true ↔ (check_for_slots inp).2 ≠ []) := by
  unfold check_for_slots
  split
  · simp
  split
  · simp
  split
  · simp
  split
  · simp
  split
  · simp
  next c cs heq =>
    constructor
    · intro b hb
      simp only [List.mem_cons] at hb
      have hmem : b ∈ (if inp.findOk then inp.buttons else []).filter isCandidate := by
        rw [heq]
        simpa using hb
      have hc := (List.mem_filter.mp hmem).2
      unfold isCandidate at hc
      simp only [Bool.and_eq_true] at hc
      exact ⟨hc.1.1.2, hc.1.2, hc.2⟩
    · simp

/-- C2 witness at a concrete availability page. -/
theorem scan_candidates_witness :
    bGood.displayed = true ∧
    ((check_for_slots scanAvail).1 = true ↔ (check_for_slots scanAvail).2 ≠ []) :=
  ⟨((scan_candidates_invariant scanAvail).1 bGood (by decide)).1,
   (scan_candidates_invariant scanAvail).2⟩

/-- C3: when the raw markup contains none of the target-hour time tokens,
the scan returns no availability and an empty candidate list, for every
possible button environment — action enumeration is never reached. -/
theorem scan_no_time_tokens (src : String)
    (h : ∀ p ∈ time_patterns, subChars p.toList src.toList = false) :
    ∀ (fault l1 l2 findOk : Bool) (buttons : List Button),
      check_for_slots ⟨fault, l1, l2, src, findOk, buttons⟩ = (false, []) := by
  intro fault l1 l2 findOk buttons
  have hf : time_patterns.filter (fun p => subChars p.toList src.toList) = [] := by
    apply List.filter_eq_nil_iff.mpr
    intro p hp
    show ¬ subChars p.toList src.toList = true
    rw [h p hp]
    simp
  unfold check_for_slots
  dsimp only
  rw [hf]
  split
  · rfl
  · split
    · rfl
    · split
      · rfl
      · rfl

/-- C3 witness on a page with no time token but a bookable button. -/
theorem scan_no_time_tokens_witness :
    check_for_slots ⟨false, true, true, "hello world", true, [bGood]⟩ = (false, []) :=
  scan_no_time_tokens "hello world" (by decide) false true true true [bGood]

/-- C4 counterexample: a scan whose session check fails after navigation,
on a page that does advertise a target-hour slot with a bookable button,
returns exactly the same value as a healthy scan of a page with no slots —
there is no distinguishable aborted-scan outcome for the caller. -/
theorem scan_expiry_indistinguishable :
    check_for_slots scanExpired = (false, []) ∧
    check_for_slots scanExpired = check_for_slots scanNone ∧
    scanExpired.loggedIn2 = false ∧
    scanExpired.pageSource = scanAvail.pageSource ∧
    scanExpired.buttons = scanAvail.buttons := by decide

/-- C4 (amended): when session verification fails after navigating to the
target resource, the scan returns the generic no-availability value
`(false, [])`, and the enclosing cycle treats it as an ordinary no-slot
cycle — no notification, no stop, no repair in that cycle; repair is only
triggered by the next cycle's pre-scan session check. -/
theorem scan_expiry_treated_as_no_slots (s : ScanInput) (interval : Int) (st : Bool)
    (inp : CycleInput) (hs : s.loggedIn2 = false) (h1 : inp.scan.loggedIn2 = false)
    (h2 : inp.loggedIn = true) (h3 : inp.cancelled = false)
    (h4 : 0 ≤ interval + inp.jitter) :
    check_for_slots s = (false, []) ∧
    cycle interval st inp = ⟨false, st, none, none⟩ := by
  refine ⟨check_expired s hs, ?_⟩
  have halive : sessionAlive inp = true := by simp [sessionAlive, h2]
  have havail : check_for_slots inp.scan = (false, []) := check_expired inp.scan h1
  have hfires : cycleFires st inp = false := by simp [cycleFires, havail]
  have hsent : cycleSent st inp = none := by simp [cycleSent, hfires]
  unfold cycle
  simp [halive, h3, hfires, hsent, not_lt.mpr h4]

/-- C4 witness at a concrete mid-scan expiry. -/
theorem scan_expiry_witness :
    check_for_slots scanExpired = (false, []) ∧
    cycle 300 false cycExpired = ⟨false, false, none, none⟩ :=
  scan_expiry_treated_as_no_slots scanExpired 300 false cycExpired rfl rfl rfl rfl (by decide)

/-- C5 counterexample: a login whose submit navigates away from the login
page succeeds even though the post-submit page text contains every piece
of the error vocabulary — `login` never inspects page content. -/
theorem login_ignores_error_vocabulary_cex :
    login false true true "https://thekallang.perfectgym.com/clientportal2/#/FacilityBooking"
      true "" "your password is invalid or incorrect, access denied" = true ∧
    subChars "invalid".toList
      (lowerChars "your password is invalid or incorrect, access denied") = true ∧
    subChars "incorrect".toList
      (lowerChars "your password is invalid or incorrect, access denied") = true ∧
    subChars "denied".toList
      (lowerChars "your password is invalid or incorrect, access denied") = true := by decide

/-- C5 (amended): `login` fails exactly on the URL heuristic — whenever
the URL still indicates the login page after the settle and after the
Enter-key retry, it returns false, and its result never depends on the
post-submit page text; in particular Scenario B (URL unchanged, text
contains "incorrect password") fails, but because of the URL alone. -/
theorem login_rejects_on_url_only (fault emailFound submitOk retryOk : Bool)
    (u1 u2 txt txt2 : String)
    (h1 : subChars "#/login".toList (lowerChars u1) = true)
    (h2 : subChars "#/login".toList (lowerChars u2) = true) :
    login fault emailFound submitOk u1 retryOk u2 txt = false ∧
    login fault emailFound submitOk u1 retryOk u2 txt =
      login fault emailFound submitOk u1 retryOk u2 txt2 := by
  constructor
  · unfold login
    split
    · rfl
    split
    · rfl
    split
    · rfl
    simp
  · rfl

/-- C5 witness: Scenario B — URL unchanged, page text "incorrect password",
login fails. -/
theorem login_rejects_witness :
    login false true true "https://thekallang.perfectgym.com/clientportal2/#/Login" true
      "https://thekallang.perfectgym.com/clientportal2/#/Login" "incorrect password" = false :=
  (login_rejects_on_url_only false true true true
    "https://thekallang.perfectgym.com/clientportal2/#/Login"
    "https://thekallang.perfectgym.com/clientportal2/#/Login"
    "incorrect password" "" (by decide) (by decide)).1

/-- C6 counterexample: when the page inspection fails, session
verification does not return false — it returns true. -/
theorem verify_fails_open_cex :
    is_logged_in false
      ⟨"https://thekallang.perfectgym.com/clientportal2/#/FacilityBooking",
       "page load timed out"⟩ ≠ false := by decide

/-- C6 (amended): `is_logged_in` fails open — whenever the underlying page
inspection raises, the session is treated as verified (true), for every
page state. -/
theorem verify_fails_open (page : PageView) : is_logged_in false page = true := rfl

/-- C1: with the gate policy never re-arming, the notification fires at
most once over any run whose scans all report availability; it fires on
the first cycle (when the session survives) because the notified flag is
still false, the flag is then set, and no cycle starting with the flag set
ever fires again. -/
theorem notify_once_per_availability (interval : Int) (l : List CycleInput)
    (hA : ∀ inp ∈ l, (check_for_slots inp.scan).1 = true) :
    (runLoop interval false l).fires ≤ 1 ∧
    (∀ inp rest, l = inp :: rest → sessionAlive inp = true →
      (cycle interval false inp).fired = true ∧
      (cycle interval false inp).notified = true) ∧
    (∀ (st : Bool) (inp : CycleInput), st = true → (cycle interval st inp).fired = false) := by
  refine ⟨runLoop_fires_le_one interval l, ?_, ?_⟩
  · intro inp rest hl hs
    have h1 : (check_for_slots inp.scan).1 = true := by
      apply hA
      rw [hl]
      exact List.mem_cons_self inp rest
    have hfire : (cycle interval false inp).fired = true := by
      rw [cycle_fired_eq, hs]
      simp [cycleFires, h1]
    refine ⟨hfire, ?_⟩
    rw [cycle_notified_eq, hfire]
    rfl
  · intro st inp hst
    subst hst
    rw [cycle_fired_eq]
    simp [cycleFires]

/-- C1 witness on a one-cycle run with availability. -/
theorem notify_once_witness : (runLoop 300 false [cycAvail]).fires ≤ 1 :=
  (notify_once_per_availability 300 [cycAvail] (by decide)).1

/-- C7: the re-login loop makes exactly the budget of 3 attempts before
the fatal exit when every attempt fails; each inter-attempt backoff drawn
from the configured bound stays within it; a success at attempt k within
the budget ends the loop after exactly k calls; exhaustion stops the
monitoring loop with the fatal reason, and a successful re-login never
produces that fatal stop. -/
theorem repair_retry_budget (outcomes : Nat → Bool) (t : ℚ)
    (interval : Int) (st : Bool) (inp : CycleInput)
    (ht0 : 0 ≤ t) (ht1 : t ≤ 1) :
    (3 ≤ random_delay 3 7 t ∧ random_delay 3 7 t ≤ 7) ∧
    ((outcomes 1 = false ∧ outcomes 2 = false ∧ outcomes 3 = false) →
      relogin outcomes = none ∧ reloginCalls outcomes = 3) ∧
    (∀ k, relogin outcomes = some k →
      1 ≤ k ∧ k ≤ 3 ∧ outcomes k = true ∧ reloginCalls outcomes = k) ∧
    (inp.loggedIn = false → relogin inp.reloginOutcomes = none →
      cycle interval st inp = ⟨false, st, none, some .sessionUnrecoverable⟩) ∧
    (∀ k, relogin inp.reloginOutcomes = some k →
      (cycle interval st inp).stop ≠ some .sessionUnrecoverable) := by
  have hrel : relogin outcomes =
      (if outcomes 1 then some 1 else if outcomes 2 then some 2
       else if outcomes 3 then some 3 else none) := rfl
  have hcalls : reloginCalls outcomes =
      (if outcomes 1 then 1 else
        1 + (if outcomes 2 then 1 else 1 + (if outcomes 3 then 1 else 1 + 0))) := rfl
  refine ⟨?_, ?_, ?_, ?_, ?_⟩
  · constructor
    · unfold random_delay
      nlinarith
    · unfold random_delay
      nlinarith
  · rintro ⟨h1, h2, h3⟩
    constructor
    · rw [hrel, h1, h2, h3]
      rfl
    · rw [hcalls, h1, h2, h3]
      rfl
  · intro k hk
    rw [hrel] at hk
    cases h1 : outcomes 1 <;> cases h2 : outcomes 2 <;> cases h3 : outcomes 3 <;>
      simp_all [hcalls] <;> omega
  · intro hli hnone
    apply cycle_stop_sessionDead
    simp [sessionAlive, hli, hnone]
  · intro k hk hcon
    have halive : sessionAlive inp = true := by
      simp [sessionAlive, hk]
    unfold cycle at hcon
    rw [halive] at hcon
    simp only [if_true] at hcon
    split at hcon
    · simp_all
    · split at hcon <;> simp_all

/-- C7 witness: the all-failures run exhausts exactly 3 attempts, and the
backoff sample at 0 stays within the bound. -/
theorem repair_retry_budget_witness :
    relogin (fun _ => false) = none ∧ reloginCalls (fun _ => false) = 3 :=
  ((repair_retry_budget (fun _ => false) 0 300 false cycAvail
    (le_refl 0) zero_le_one).2.1) ⟨rfl, rfl, rfl⟩

/-- C8 counterexample: with a configured interval of 60 seconds and a
sampled jitter of -300 (inside the sampled bound), a healthy cycle — live
session, no interrupt, benign scan — terminates the loop with the
sleep-error reason, which is neither an external cancellation nor a fatal
session failure. -/
theorem loop_sleep_terminates_cex :
    (cycle 60 false cycNegSleep).stop = some .sleepError ∧
    cycNegSleep.cancelled = false ∧
    sessionAlive cycNegSleep = true ∧
    (-300 ≤ cycNegSleep.jitter ∧ cycNegSleep.jitter ≤ 300) ∧
    StopReason.sleepError ≠ StopReason.cancelled ∧
    StopReason.sleepError ≠ StopReason.sessionUnrecoverable := by decide

/-- C8 (amended): a cycle stops the loop only on external cancellation, on
a fatal session failure, or on a negative jittered sleep duration; with a
non-negative jittered duration every other condition (scan faults, scan
results, dismissal failures, send failures) lets the loop proceed; when
the configured interval is at least the jitter bound of 300 the jittered
duration is never negative; dismissal never aborts; and every exit of
`run_bot` passes through the teardown. -/
theorem loop_stop_reasons (interval : Int) (st : Bool) (inp : CycleInput)
    (l : List CycleInput) (r : StopReason)
    (hr : (cycle interval st inp).stop = some r) :
    ((r = .cancelled ∧ inp.cancelled = true) ∨
      (r = .sessionUnrecoverable ∧ sessionAlive inp = false) ∨
      (r = .sleepError ∧ interval + inp.jitter < 0)) ∧
    (∀ (st2 : Bool) (inp2 : CycleInput),
      inp2.cancelled = false → sessionAlive inp2 = true → 0 ≤ interval + inp2.jitter →
      (cycle interval st2 inp2).stop = none) ∧
    (∀ j : Int, -300 ≤ j → j ≤ 300 → 300 ≤ interval → 0 ≤ interval + j) ∧
    (∀ fault : Bool, dismiss_popups fault = true) ∧
    (run_bot interval l).2 = true := by
  refine ⟨cycle_stop_cases interval st inp r hr, ?_, ?_, ?_, rfl⟩
  · intro st2 inp2 hc ha hj
    exact cycle_stop_none interval st2 inp2 ha hc hj
  · intro j hj1 hj2 hi
    omega
  · intro fault
    cases fault <;> rfl

/-- C8 witness: a cancelled cycle stops with the cancellation reason and a
healthy 300-second cycle continues. -/
theorem loop_stop_reasons_witness :
    ((StopReason.cancelled = StopReason.cancelled ∧ true = true) ∨
      (StopReason.cancelled = StopReason.sessionUnrecoverable ∧
        sessionAlive ⟨true, fun _ => true, scanNone, true, 0, true⟩ = false) ∨
      (StopReason.cancelled = StopReason.sleepError ∧ (300 : Int) + 0 < 0)) ∧
    (cycle 300 false cycAvail).stop = none :=
  have h := loop_stop_reasons 300 false ⟨true, fun _ => true, scanNone, true, 0, true⟩
    [] StopReason.cancelled (by decide)
  ⟨h.1, h.2.1 false cycAvail rfl rfl (by decide)⟩

/-- C9: a failed notification send never rolls the gate back: the cycle
where the gate fires sets the notified flag to true even when the send
returns failure, the fired flag, notified flag and stop reason of a cycle
do not depend on the send outcome at all, and no later cycle of the run
fires again. -/
theorem send_failure_no_rollback (interval : Int) (inp : CycleInput) (n : Nat)
    (hsend : inp.sendOk = false) (halive : sessionAlive inp = true)
    (havail : (check_for_slots inp.scan).1 = true) :
    send_notification_email inp.sendOk n = false ∧
    (cycle interval false inp).fired = true ∧
    (cycle interval false inp).notified = true ∧
    (∀ (st b : Bool),
      ((cycle interval st { inp with sendOk := b }).fired,
       (cycle interval st { inp with sendOk := b }).notified,
       (cycle interval st { inp with sendOk := b }).stop) =
      ((cycle interval st inp).fired, (cycle interval st inp).notified,
       (cycle interval st inp).stop)) ∧
    (∀ l, (runLoop interval (cycle interval false inp).notified l).fires = 0) := by
  have hfire : (cycle interval false inp).fired = true := by
    rw [cycle_fired_eq, halive]
    simp [cycleFires, havail]
  have hnot : (cycle interval false inp).notified = true := by
    rw [cycle_notified_eq, hfire]
    rfl
  refine ⟨by simp [send_notification_email, hsend], hfire, hnot, ?_, ?_⟩
  · intro st b
    unfold cycle cycleFires sessionAlive
    dsimp only
    split <;> [skip; rfl]
    split <;> [rfl; skip]
    split <;> rfl
  · intro l
    rw [hnot]
    exact runLoop_fires_zero interval l

/-- C9 witness at a concrete failed-send cycle. -/
theorem send_failure_witness :
    (cycle 300 false cycSendFail).fired = true ∧
    (cycle 300 false cycSendFail).notified = true := by
  have h := send_failure_no_rollback 300 cycSendFail 1 rfl rfl (by decide)
  exact ⟨h.2.1, h.2.2.1⟩

/-- C10: the gate never re-arms for the process lifetime: starting from
the false flag every run fires at most once, the only mutation of the flag
is or-ing in the firing (false to true), and a set flag stays set through
every cycle — so even when availability disappears and reappears at most
one notification is ever attempted per run. -/
theorem gate_never_rearms (interval : Int) (l : List CycleInput)
    (st : Bool) (inp : CycleInput) :
    (runLoop interval false l).fires ≤ 1 ∧
    (cycle interval st inp).notified = (st || (cycle interval st inp).fired) ∧
    (st = true → (cycle interval st inp).notified = true) := by
  refine ⟨runLoop_fires_le_one interval l, cycle_notified_eq interval st inp, ?_⟩
  intro hst
  subst hst
  rw [cycle_notified_eq]
  simp

/-- C10 witness: a set flag survives a cycle. -/
theorem gate_never_rearms_witness : (cycle 300 true cycAvail).notified = true :=
  (gate_never_rearms 300 [] true cycAvail).2.2 rfl
